import Mathlib

/-!
Shallow embedding of the sale-transaction path of the
Sales-and-Inventory-management-System repository.

The embedded code:
  * the POST /api/sales route handler (src/unnamed/part_008, registerRoutes),
  * the zod schemas it validates with (src/unnamed/part_005: insertSaleSchema,
    which has fields total and customerName only, so any paymentMode key on the
    request is stripped by zod parsing),
  * the mongoose Sale schema (src/server/db.ts: paymentMode defaults to "Cash"
    when the created document carries no paymentMode field),
  * the storage layer the route calls (src/unnamed/part_007: createSale,
    createSaleItems, updateProduct with a $inc update), and
  * the batch createSale of src/server/storage.ts (MongoStorage.createSale),
    which creates the sale, then per item creates the SaleItem and rewrites the
    product quantity to the value read minus the item quantity.

Numbers of the JavaScript runtime are modelled as rationals; document ids are
opaque strings (products) or the generated index in the sales collection
(sales).  Execution is sequential state passing; for the concurrency claim the
handler is split into its read-only validation phase and its write phase so
that interleavings of two requests can be evaluated explicitly.
-/

namespace SIMS

/-- A product document (src/server/db.ts productSchema). -/
structure Product where
  id : String
  name : String
  sku : String
  price : ℚ
  quantity : ℚ
  lowStockAlert : ℚ
  imageUrl : Option String
deriving Repr, DecidableEq

/-- The sale object of the request body (what the client sends under `sale`). -/
structure SaleInput where
  total : ℚ
  customerName : Option String
  paymentMode : Option String
deriving Repr, DecidableEq

/-- Output of insertSaleSchema.parse (src/unnamed/part_005): the zod object has
only total and customerName, so parsing strips any other key, in particular
paymentMode. -/
structure ValidatedSale where
  total : ℚ
  customerName : Option String
deriving Repr, DecidableEq

/-- One element of the `items` array of the request body. -/
structure LineInput where
  productId : String
  quantity : ℚ
  price : ℚ
deriving Repr, DecidableEq

/-- A persisted Sale document (src/server/db.ts saleSchema); `id` is the
generated identity, modelled as the index in the sales collection. -/
structure SaleRec where
  id : Nat
  total : ℚ
  customerName : Option String
  paymentMode : String
deriving Repr, DecidableEq

/-- A persisted SaleItem document (src/server/db.ts saleItemSchema). -/
structure SaleItemRec where
  saleId : Nat
  productId : String
  quantity : ℚ
  price : ℚ
deriving Repr, DecidableEq

/-- The persistent store: the products, sales and sale-items collections. -/
structure DB where
  products : List Product
  sales : List SaleRec
  saleItems : List SaleItemRec
deriving Repr, DecidableEq

/-- storage.getProduct: Product.findById, the first (and in a well-formed
store only) document whose id matches. -/
def getProduct : List Product → String → Option Product
  | [], _ => none
  | p :: ps, i => if p.id = i then some p else getProduct ps i

/-- Product.findByIdAndUpdate with a $inc on quantity (the decrement loop of
the POST /api/sales handler uses updateProduct with \x7b $inc: \x7b quantity:
-item.quantity \x7d \x7d): add `d` to the quantity of the document with the
given id.  The update is unconditional: no guard compares the stored quantity
with the decrement. -/
def incQuantity : List Product → String → ℚ → List Product
  | [], _, _ => []
  | p :: ps, i, d =>
      if p.id = i then { p with quantity := p.quantity + d } :: ps
      else p :: incQuantity ps i d

/-- Product.findByIdAndUpdate with a plain field write (src/server/storage.ts
createSale sets quantity to a value computed from a prior read): set the
quantity of the document with the given id to `q`. -/
def setQuantity : List Product → String → ℚ → List Product
  | [], _, _ => []
  | p :: ps, i, q =>
      if p.id = i then { p with quantity := q } :: ps
      else p :: setQuantity ps i q

/-- insertSaleSchema.parse (src/unnamed/part_005): total is z.number().min(0),
customerName is an optional string, and the unknown key paymentMode is
stripped.  Parsing fails exactly when total is negative. -/
def insertSaleSchemaParse (s : SaleInput) : Option ValidatedSale :=
  if 0 ≤ s.total then some ⟨s.total, s.customerName⟩ else none

/-- The per-line checks of the POST /api/sales validation loop
(src/unnamed/part_008), in source order: falsy or non-string productId, then
product existence, then falsy or non-positive quantity, then stock
sufficiency.  Returns the message of the first failing check. -/
def validateLine (ps : List Product) (it : LineInput) : Option String :=
  if it.productId = "" then some "Invalid product ID in sale items"
  else
    match getProduct ps it.productId with
    | none => some "Product not found"
    | some p =>
        if it.quantity ≤ 0 then some "Invalid quantity"
        else if p.quantity < it.quantity then some "Insufficient stock"
        else none

/-- The validation loop over the items array: lines are checked in order and
the first error aborts the request. -/
def validateItems (ps : List Product) : List LineInput → Option String
  | [] => none
  | it :: rest =>
      match validateLine ps it with
      | some e => some e
      | none => validateItems ps rest

/-- The outcome of the route handler: 201 with the created sale, or 400 with
an error message. -/
inductive ApiResult where
  | created (sale : SaleRec)
  | badRequest (msg : String)
deriving Repr, DecidableEq

/-- The write phase of a successful checkout (src/unnamed/part_008 after the
validation loop): storage.createSale persists the validated sale object (the
mongoose schema fills paymentMode with its default "Cash", since zod stripped
the field), storage.createSaleItems inserts one SaleItem per line carrying the
created sale id and the client-supplied productId, quantity and price, and the
inventory loop applies one unguarded $inc decrement per line. -/
def commitSale (db : DB) (vs : ValidatedSale) (items : List LineInput) :
    ApiResult × DB :=
  let saleRec : SaleRec := ⟨db.sales.length, vs.total, vs.customerName, "Cash"⟩
  let newItems := items.map
    (fun it => SaleItemRec.mk saleRec.id it.productId it.quantity it.price)
  let products := items.foldl
    (fun ps it => incQuantity ps it.productId (-it.quantity)) db.products
  (ApiResult.created saleRec,
   ⟨products, db.sales ++ [saleRec], db.saleItems ++ newItems⟩)

/-- The read-only phase of a checkout attempt: the shape guard on the items
array, insertSaleSchema.parse on the sale object, then the validation loop.
`none` means the attempt proceeds to its write phase. -/
def checkoutValidate (db : DB) (sale : SaleInput) (items : List LineInput) :
    Option String :=
  if items.isEmpty then some "Invalid sale data format"
  else
    match insertSaleSchemaParse sale with
    | none => some "Invalid sale data"
    | some _ => validateItems db.products items

/-- The POST /api/sales handler of src/unnamed/part_008, run sequentially: a
missing sale object, a missing (or non-array) items field or an empty items
array is rejected with "Invalid sale data format" before anything else; then
the sale object is zod-parsed; then the validation loop runs; only when every
check passes does the write phase execute.  `none` in an argument models a
missing or non-array field of the JSON body. -/
def postSales (db : DB) (saleIn : Option SaleInput)
    (itemsIn : Option (List LineInput)) : ApiResult × DB :=
  match saleIn, itemsIn with
  | none, _ => (ApiResult.badRequest "Invalid sale data format", db)
  | some _, none => (ApiResult.badRequest "Invalid sale data format", db)
  | some sale, some items =>
      if items.isEmpty then (ApiResult.badRequest "Invalid sale data format", db)
      else
        match insertSaleSchemaParse sale with
        | none => (ApiResult.badRequest "Invalid sale data", db)
        | some vs =>
            match validateItems db.products items with
            | some msg => (ApiResult.badRequest msg, db)
            | none => commitSale db vs items

/-- MongoStorage.createSale of src/server/storage.ts: create the sale, then
for each item create the SaleItem and, when the referenced product exists,
rewrite its quantity to the value just read minus the item quantity — a
separate read followed by a separate unguarded write. -/
def createSaleBatch (db : DB) (vs : ValidatedSale) (items : List LineInput) :
    SaleRec × DB :=
  let saleRec : SaleRec := ⟨db.sales.length, vs.total, vs.customerName, "Cash"⟩
  let fin := items.foldl
    (fun (acc : List Product × List SaleItemRec) it =>
      let withItem := acc.2 ++ [SaleItemRec.mk saleRec.id it.productId it.quantity it.price]
      match getProduct acc.1 it.productId with
      | none => (acc.1, withItem)
      | some p => (setQuantity acc.1 it.productId (p.quantity - it.quantity), withItem))
    (db.products, db.saleItems)
  (saleRec, ⟨fin.1, db.sales ++ [saleRec], fin.2⟩)

/-- Total quantity requested for a given product id across the cart lines. -/
def requestedQty (i : String) : List LineInput → ℚ
  | [] => 0
  | it :: rest => (if it.productId = i then it.quantity else 0) + requestedQty i rest

/-- Sum of price times quantity over the cart lines (what the spec says the
sale total should be recomputed from). -/
def lineSum (items : List LineInput) : ℚ :=
  (items.map (fun it => it.price * it.quantity)).sum

/-- Rounding to 2 decimal places, from the spec wording for the sale total. -/
def round2 (q : ℚ) : ℚ := (round (q * 100) : ℤ) / 100

/-- A demonstration product with the given quantity on hand. -/
def demoProduct (q : ℚ) : Product := ⟨"p1", "Widget", "SKU-1", 5, q, 10, none⟩

/-- A store holding only the demonstration product. -/
def demoDB (q : ℚ) : DB := ⟨[demoProduct q], [], []⟩

/-- How a $inc update changes what findById returns: the id it targets gets the
delta added, every other id reads the same document as before. -/
lemma getProduct_incQuantity (ps : List Product) (j : String) (d : ℚ) (i : String) :
    getProduct (incQuantity ps j d) i
      = if j = i then (getProduct ps i).map (fun p => { p with quantity := p.quantity + d })
        else getProduct ps i := by
  induction ps with
  | nil => cases hj : decide (j = i) <;> simp [incQuantity, getProduct]
  | cons p ps ih =>
      by_cases hpj : p.id = j
      · by_cases hji : j = i
        · subst hji
          simp [incQuantity, getProduct, hpj]
        · have hpi : ¬ p.id = i := fun h => hji (hpj ▸ h)
          simp [incQuantity, getProduct, hpj, hpi, hji]
      · by_cases hpi : p.id = i
        · have hji : ¬ j = i := fun h => hpj (by rw [hpi, h])
          have hij : ¬ i = j := fun h => hji h.symm
          simp [incQuantity, getProduct, hpj, hpi, hji, hij]
        · simp [incQuantity, getProduct, hpj, hpi, ih]

/-- Effect of the whole decrement loop of a checkout on what findById returns:
each id loses exactly the total quantity the cart requests for it. -/
lemma getProduct_decrement_loop (items : List LineInput) (ps : List Product) (i : String) :
    getProduct (items.foldl (fun acc it => incQuantity acc it.productId (-it.quantity)) ps) i
      = (getProduct ps i).map (fun p => { p with quantity := p.quantity - requestedQty i items }) := by
  induction items generalizing ps with
  | nil =>
      cases h : getProduct ps i with
      | none => simp [h]
      | some p => cases p; simp [h, requestedQty]
  | cons it rest ih =>
      rw [List.foldl_cons, ih, getProduct_incQuantity]
      by_cases hji : it.productId = i
      · cases h : getProduct ps i with
        | none => simp [h, hji]
        | some p =>
            cases p
            simp [h, hji, requestedQty]
            ring
      · cases h : getProduct ps i with
        | none => simp [h, hji]
        | some p => cases p; simp [h, hji, requestedQty]

/-- A line passing all four checks of the validation loop. -/
lemma validateLine_none (ps : List Product) (it : LineInput) (p : Product)
    (h1 : it.productId ≠ "") (h2 : getProduct ps it.productId = some p)
    (h3 : 0 < it.quantity) (h4 : it.quantity ≤ p.quantity) :
    validateLine ps it = none := by
  simp [validateLine, h1, h2, not_le.mpr h3, not_lt.mpr h4]

/-- A line failing the stock check (and passing the checks before it). -/
lemma validateLine_insufficient (ps : List Product) (it : LineInput) (p : Product)
    (h1 : it.productId ≠ "") (h2 : getProduct ps it.productId = some p)
    (h3 : 0 < it.quantity) (h4 : p.quantity < it.quantity) :
    validateLine ps it = some "Insufficient stock" := by
  simp [validateLine, h1, h2, not_le.mpr h3, h4]

/-- A line failing the existence check (and passing the productId check). -/
lemma validateLine_notFound (ps : List Product) (it : LineInput)
    (h1 : it.productId ≠ "") (h2 : getProduct ps it.productId = none) :
    validateLine ps it = some "Product not found" := by
  simp [validateLine, h1, h2]

/-- A line failing the quantity check (and passing the checks before it). -/
lemma validateLine_invalidQuantity (ps : List Product) (it : LineInput) (p : Product)
    (h1 : it.productId ≠ "") (h2 : getProduct ps it.productId = some p)
    (h3 : it.quantity ≤ 0) :
    validateLine ps it = some "Invalid quantity" := by
  simp [validateLine, h1, h2, h3]

/-- The validation loop passes when every line passes. -/
lemma validateItems_none (ps : List Product) :
    ∀ items : List LineInput, (∀ it ∈ items, validateLine ps it = none) →
      validateItems ps items = none := by
  intro items
  induction items with
  | nil => intro _; rfl
  | cons it rest ih =>
      intro hall
      have h := hall it (by simp)
      have hrest := ih (fun x hx => hall x (by simp [hx]))
      simp [validateItems, h, hrest]

/-- When every line either passes or fails with the message M, and some line
fails with M, the loop reports M (the first failure aborts the loop). -/
lemma validateItems_first_error (ps : List Product) (M : String) :
    ∀ items : List LineInput,
      (∀ it ∈ items, validateLine ps it = none ∨ validateLine ps it = some M) →
      (∃ it ∈ items, validateLine ps it = some M) →
      validateItems ps items = some M := by
  intro items
  induction items with
  | nil => intro _ hex; simp at hex
  | cons it rest ih =>
      intro hall hex
      rcases hall it (by simp) with h | h
      · have hrest : validateItems ps rest = some M := by
          apply ih (fun x hx => hall x (by simp [hx]))
          rcases hex with ⟨y, hy, hyM⟩
          rcases List.mem_cons.mp hy with rfl | hy'
          · rw [h] at hyM; exact absurd hyM (by simp)
          · exact ⟨y, hy', hyM⟩
        simp [validateItems, h, hrest]
      · simp [validateItems, h]

/-- The handler reduces to the write phase when the shape guard, the zod parse
and the validation loop all pass. -/
lemma postSales_eq_commit (db : DB) (sale : SaleInput) (vs : ValidatedSale)
    (items : List LineInput) (hne : items ≠ [])
    (hp : insertSaleSchemaParse sale = some vs)
    (hv : validateItems db.products items = none) :
    postSales db (some sale) (some items) = commitSale db vs items := by
  obtain ⟨a, l, rfl⟩ := List.exists_cons_of_ne_nil hne
  simp [postSales, hp, hv]

/-- The handler rejects with the message of the validation loop, leaving the
store untouched, when the loop fails after the parse passed. -/
lemma postSales_eq_badRequest (db : DB) (sale : SaleInput) (vs : ValidatedSale)
    (items : List LineInput) (msg : String) (hne : items ≠ [])
    (hp : insertSaleSchemaParse sale = some vs)
    (hv : validateItems db.products items = some msg) :
    postSales db (some sale) (some items) = (ApiResult.badRequest msg, db) := by
  obtain ⟨a, l, rfl⟩ := List.exists_cons_of_ne_nil hne
  simp [postSales, hp, hv]

/-- Inversion of a successful handler run: a 201 can only come out of the
write phase, so the created sale and the final store are exactly what
commitSale builds. -/
lemma postSales_created_inv (db : DB) (sale : SaleInput) (items : List LineInput)
    (s : SaleRec) (db' : DB)
    (h : postSales db (some sale) (some items) = (ApiResult.created s, db')) :
    s = ⟨db.sales.length, sale.total, sale.customerName, "Cash"⟩ ∧
    db' = ⟨items.foldl (fun acc it => incQuantity acc it.productId (-it.quantity)) db.products,
           db.sales ++ [s],
           db.saleItems ++ items.map
             (fun it => SaleItemRec.mk db.sales.length it.productId it.quantity it.price)⟩ := by
  by_cases he : items.isEmpty
  · simp [postSales, he] at h
  · cases hp : insertSaleSchemaParse sale with
    | none => simp [postSales, he, hp] at h
    | some vs =>
        cases hv : validateItems db.products items with
        | some msg => simp [postSales, he, hp, hv] at h
        | none =>
            have hvs : vs = ⟨sale.total, sale.customerName⟩ := by
              unfold insertSaleSchemaParse at hp
              split at hp
              · exact (Option.some.injEq ..).mp hp |>.symm ▸ rfl
              · exact absurd hp (by simp)
            simp only [postSales, he, hp, hv, Bool.false_eq_true, if_false] at h
            rw [commitSale] at h
            obtain ⟨h1, h2⟩ := Prod.mk.injEq .. ▸ h
            have hs : s = ⟨db.sales.length, vs.total, vs.customerName, "Cash"⟩ :=
              (ApiResult.created.injEq ..).mp h1.symm ▸ rfl
            subst hvs
            exact ⟨hs, by rw [← h2, hs]⟩

/-- Claim C1: the sale-creation path is claimed to preserve non-negativity of
every product quantity.  It does not: with one unit on hand and a cart whose
two lines each request one unit of the same product, the validation loop
passes both lines (each is checked against the unmodified stock of 1), the
checkout succeeds, and the two unguarded $inc decrements drive the persisted
quantity to -1.  The batch createSale of src/server/storage.ts likewise writes
a negative quantity when the requested amount exceeds the stock it read. -/
theorem c1_stock_goes_negative :
    (postSales (demoDB 1) (some ⟨10, none, none⟩)
        (some [⟨"p1", 1, 5⟩, ⟨"p1", 1, 5⟩])).1
      = ApiResult.created ⟨0, 10, none, "Cash"⟩
  ∧ getProduct (postSales (demoDB 1) (some ⟨10, none, none⟩)
        (some [⟨"p1", 1, 5⟩, ⟨"p1", 1, 5⟩])).2.products "p1"
      = some ⟨"p1", "Widget", "SKU-1", 5, -1, 10, none⟩
  ∧ getProduct (createSaleBatch (demoDB 5) ⟨50, none⟩ [⟨"p1", 10, 5⟩]).2.products "p1"
      = some ⟨"p1", "Widget", "SKU-1", 5, -5, 10, none⟩
  ∧ (-1 : ℚ) < 0 := by
  norm_num +decide [postSales, insertSaleSchemaParse, validateItems, validateLine,
    getProduct, commitSale, createSaleBatch, incQuantity, setQuantity, checkoutValidate,
    demoDB, demoProduct]

/-- Claim C2, counterexample to the claim as stated: a cart that does contain
a line exceeding the available stock (100 requested, 5 on hand) is rejected
with "Product not found", not "Insufficient stock", because an earlier line
referencing a missing product fails first — the validation loop reports the
first failing check of the first failing line. -/
theorem c2_counterexample :
    (postSales (demoDB 5) (some ⟨10, none, none⟩)
        (some [⟨"missing", 1, 1⟩, ⟨"p1", 100, 1⟩])).1
      = ApiResult.badRequest "Product not found"
  ∧ getProduct (demoDB 5).products "p1" = some (demoProduct 5)
  ∧ (demoProduct 5).quantity < 100
  ∧ "Product not found" ≠ "Insufficient stock" := by decide

/-- Claim C2, amended: when every line of the cart has a nonempty productId
referencing an existing product and a positive quantity, and some line
requests more than its product has on hand, the checkout fails with the
InsufficientStock error and the store is returned unchanged (no stock, sale
or sale-item write happens). -/
theorem c2_amended (db : DB) (sale : SaleInput) (items : List LineInput)
    (hT : 0 ≤ sale.total)
    (hall : ∀ it ∈ items, it.productId ≠ "" ∧
      ∃ p, getProduct db.products it.productId = some p ∧ 0 < it.quantity)
    (hex : ∃ it ∈ items, ∃ p, getProduct db.products it.productId = some p ∧
      p.quantity < it.quantity) :
    postSales db (some sale) (some items)
      = (ApiResult.badRequest "Insufficient stock", db) := by
  obtain ⟨it0, hit0, p0, hp0, hlt0⟩ := hex
  have hne : items ≠ [] := fun h => by simp [h] at hit0
  apply postSales_eq_badRequest db sale ⟨sale.total, sale.customerName⟩ items _ hne
  · simp [insertSaleSchemaParse, hT]
  · apply validateItems_first_error
    · intro x hx
      obtain ⟨hid, p, hp, hq⟩ := hall x hx
      by_cases hlt : p.quantity < x.quantity
      · exact Or.inr (validateLine_insufficient _ _ _ hid hp hq hlt)
      · exact Or.inl (validateLine_none _ _ _ hid hp hq (not_lt.mp hlt))
    · obtain ⟨hid, p, hp, hq⟩ := hall it0 hit0
      rw [hp] at hp0
      exact ⟨it0, hit0,
        validateLine_insufficient _ _ _ hid hp hq (Option.some.inj hp0 ▸ hlt0)⟩

/-- Claim C2, witness: the spec scenario — 10 requested, 5 on hand — is
rejected with InsufficientStock and the stock stays at 5. -/
theorem c2_amended_witness :
    postSales (demoDB 5) (some ⟨100, none, none⟩) (some [⟨"p1", 10, 10⟩])
      = (ApiResult.badRequest "Insufficient stock", demoDB 5) :=
  c2_amended (demoDB 5) ⟨100, none, none⟩ [⟨"p1", 10, 10⟩]
    (by decide)
    (by
      intro it hit
      simp only [List.mem_singleton] at hit
      subst hit
      exact ⟨by decide, demoProduct 5, by decide, by decide⟩)
    ⟨⟨"p1", 10, 10⟩, by simp, demoProduct 5, by decide, by decide⟩

/-- Claim C3, counterexample to the claim as stated: a cart that does contain
a line referencing a missing product is rejected with "Insufficient stock",
not "Product not found", because an earlier line fails the stock check first.
The no-writes part survives (the store comes back unchanged), only the
reported error differs. -/
theorem c3_counterexample :
    (postSales (demoDB 5) (some ⟨10, none, none⟩)
        (some [⟨"p1", 100, 1⟩, ⟨"missing", 1, 1⟩]))
      = (ApiResult.badRequest "Insufficient stock", demoDB 5)
  ∧ getProduct (demoDB 5).products "missing" = none
  ∧ "Insufficient stock" ≠ "Product not found" := by decide

/-- Claim C3, amended: when every line has a nonempty productId, every line
whose product exists passes the quantity and stock checks, and some line
references a missing product, the checkout fails with the ProductNotFound
error and no write occurs: the store (products, sales and sale items) is
returned unchanged. -/
theorem c3_amended (db : DB) (sale : SaleInput) (items : List LineInput)
    (hT : 0 ≤ sale.total)
    (hids : ∀ it ∈ items, it.productId ≠ "")
    (hok : ∀ it ∈ items, ∀ p, getProduct db.products it.productId = some p →
      0 < it.quantity ∧ it.quantity ≤ p.quantity)
    (hex : ∃ it ∈ items, getProduct db.products it.productId = none) :
    postSales db (some sale) (some items)
      = (ApiResult.badRequest "Product not found", db) := by
  obtain ⟨it0, hit0, hmiss⟩ := hex
  have hne : items ≠ [] := fun h => by simp [h] at hit0
  apply postSales_eq_badRequest db sale ⟨sale.total, sale.customerName⟩ items _ hne
  · simp [insertSaleSchemaParse, hT]
  · apply validateItems_first_error
    · intro x hx
      cases hp : getProduct db.products x.productId with
      | none => exact Or.inr (validateLine_notFound _ _ (hids x hx) hp)
      | some p =>
          obtain ⟨hq, hle⟩ := hok x hx p hp
          exact Or.inl (validateLine_none _ _ _ (hids x hx) hp hq hle)
    · exact ⟨it0, hit0, validateLine_notFound _ _ (hids it0 hit0) hmiss⟩

/-- Claim C3, witness: a cart referencing the unknown id "ghost" is rejected
with ProductNotFound and the store is unchanged. -/
theorem c3_amended_witness :
    postSales (demoDB 5) (some ⟨10, none, none⟩) (some [⟨"ghost", 2, 3⟩])
      = (ApiResult.badRequest "Product not found", demoDB 5) :=
  c3_amended (demoDB 5) ⟨10, none, none⟩ [⟨"ghost", 2, 3⟩]
    (by decide)
    (by intro it hit; simp only [List.mem_singleton] at hit; subst hit; decide)
    (by
      intro it hit p hp
      simp only [List.mem_singleton] at hit
      subst hit
      simp +decide [demoDB, demoProduct, getProduct] at hp)
    ⟨⟨"ghost", 2, 3⟩, by simp, by decide⟩

/-- Claim C4, counterexample to the claim as stated: a cart whose only line
references an existing product with requested quantity (0) at most the stock
on hand (5) — valid in the sense the claim states — does not succeed: the
handler rejects it with the quantity check, because validation additionally
requires every quantity to be positive. -/
theorem c4_counterexample :
    (postSales (demoDB 5) (some ⟨0, none, none⟩) (some [⟨"p1", 0, 2⟩]))
      = (ApiResult.badRequest "Invalid quantity", demoDB 5)
  ∧ getProduct (demoDB 5).products "p1" = some (demoProduct 5)
  ∧ (0 : ℚ) ≤ (demoProduct 5).quantity := by decide

/-- Claim C4, amended: for a sale object passing the zod parse (total at least
0) and a non-empty cart in which every line has a nonempty productId
referencing an existing product and a positive quantity at most that product
has on hand, the checkout succeeds, and afterwards findById of any id whose
document existed returns it with quantity decreased by exactly the total
quantity the cart requested for that id. -/
theorem c4_amended (db : DB) (sale : SaleInput) (items : List LineInput)
    (hT : 0 ≤ sale.total) (hne : items ≠ [])
    (hall : ∀ it ∈ items, it.productId ≠ "" ∧
      ∃ p, getProduct db.products it.productId = some p ∧
        0 < it.quantity ∧ it.quantity ≤ p.quantity) :
    (postSales db (some sale) (some items)).1
        = ApiResult.created ⟨db.sales.length, sale.total, sale.customerName, "Cash"⟩
  ∧ ∀ i p, getProduct db.products i = some p →
      getProduct (postSales db (some sale) (some items)).2.products i
        = some { p with quantity := p.quantity - requestedQty i items } := by
  have hv : validateItems db.products items = none := by
    apply validateItems_none
    intro x hx
    obtain ⟨hid, p, hp, hq, hle⟩ := hall x hx
    exact validateLine_none _ _ _ hid hp hq hle
  have hps := postSales_eq_commit db sale ⟨sale.total, sale.customerName⟩ items hne
    (by simp [insertSaleSchemaParse, hT]) hv
  rw [hps]
  refine ⟨rfl, ?_⟩
  intro i p hp
  show getProduct (commitSale db ⟨sale.total, sale.customerName⟩ items).2.products i = _
  rw [commitSale]
  rw [getProduct_decrement_loop, hp]
  rfl

/-- Claim C4, witness: buying 2 units of the product at the client price 10
with 5 on hand succeeds and leaves 3 units on hand. -/
theorem c4_amended_witness :
    (postSales (demoDB 5) (some ⟨20, none, none⟩)
        (some [⟨"p1", 2, 10⟩])).1
      = ApiResult.created ⟨0, 20, none, "Cash"⟩
  ∧ getProduct (postSales (demoDB 5) (some ⟨20, none, none⟩)
        (some [⟨"p1", 2, 10⟩])).2.products "p1"
      = some ⟨"p1", "Widget", "SKU-1", 5, 3, 10, none⟩ := by
  have h := c4_amended (demoDB 5) ⟨20, none, none⟩ [⟨"p1", 2, 10⟩]
    (by decide) (by exact List.cons_ne_nil _ _)
    (by
      intro it hit
      simp only [List.mem_singleton] at hit
      subst hit
      exact ⟨by decide, demoProduct 5, by decide, by decide, by decide⟩)
  refine ⟨h.1, ?_⟩
  have h2 := h.2 "p1" (demoProduct 5) (by decide)
  rw [h2]
  norm_num [requestedQty, demoProduct]

/-- Claim C5, counterexample to the claim as stated: the handler persists the
client-supplied total unchanged; a request whose total field is 999 while its
single line sums to 1 is stored with total 999, so the persisted total is not
the recomputed, rounded line sum. -/
theorem c5_counterexample :
    (postSales (demoDB 5) (some ⟨999, none, none⟩) (some [⟨"p1", 1, 1⟩])).1
      = ApiResult.created ⟨0, 999, none, "Cash"⟩
  ∧ round2 (lineSum [⟨"p1", 1, 1⟩]) = 1
  ∧ (999 : ℚ) ≠ 1 := by
  refine ⟨?_, ?_, by norm_num⟩
  · norm_num +decide [postSales, insertSaleSchemaParse, validateItems, validateLine,
    getProduct, commitSale, createSaleBatch, incQuantity, setQuantity, checkoutValidate,
    demoDB, demoProduct]
  · norm_num [round2, lineSum]

/-- Claim C5, amended: the persisted total of every successful checkout equals
the client-supplied total field (which the zod schema only constrains to be
non-negative); the processor performs no recomputation from the line items. -/
theorem c5_amended (db : DB) (sale : SaleInput) (items : List LineInput)
    (s : SaleRec) (db' : DB)
    (h : postSales db (some sale) (some items) = (ApiResult.created s, db')) :
    s.total = sale.total := by
  obtain ⟨hs, _⟩ := postSales_created_inv db sale items s db' h
  rw [hs]

/-- Claim C5, witness: the sale persisted for a client total of 999 carries
total 999. -/
theorem c5_amended_witness :
    (SaleRec.mk 0 999 none "Cash").total = (SaleInput.mk 999 none none).total :=
  c5_amended (demoDB 5) ⟨999, none, none⟩ [⟨"p1", 1, 1⟩] ⟨0, 999, none, "Cash"⟩
    ⟨[⟨"p1", "Widget", "SKU-1", 5, 4, 10, none⟩], [⟨0, 999, none, "Cash"⟩],
     [⟨0, "p1", 1, 1⟩]⟩
    (by norm_num +decide [postSales, insertSaleSchemaParse, validateItems, validateLine,
    getProduct, commitSale, createSaleBatch, incQuantity, setQuantity, checkoutValidate,
    demoDB, demoProduct])

/-- Claim C6: every successful checkout appends exactly one SaleItem per cart
line, carrying the created sale identity and the productId, quantity and
price supplied by the client for that line.  The store is universally
quantified, so the products current prices at checkout time play no part in
the persisted line prices. -/
theorem c6_item_price_from_client (db : DB) (sale : SaleInput)
    (items : List LineInput) (s : SaleRec) (db' : DB)
    (h : postSales db (some sale) (some items) = (ApiResult.created s, db')) :
    db'.saleItems = db.saleItems ++ items.map
      (fun it => SaleItemRec.mk db.sales.length it.productId it.quantity it.price) := by
  obtain ⟨_, hdb⟩ := postSales_created_inv db sale items s db' h
  rw [hdb]

/-- Claim C6, witness: a line bought at the client price 7 is persisted with
price 7 although the product record prices it at 5. -/
theorem c6_witness :
    (DB.mk [⟨"p1", "Widget", "SKU-1", 5, 3, 10, none⟩] [⟨0, 14, none, "Cash"⟩]
        [⟨0, "p1", 2, 7⟩]).saleItems
      = (demoDB 5).saleItems ++ ([⟨"p1", 2, 7⟩] : List LineInput).map
          (fun it => SaleItemRec.mk (demoDB 5).sales.length it.productId it.quantity it.price) :=
  c6_item_price_from_client (demoDB 5) ⟨14, none, none⟩ [⟨"p1", 2, 7⟩]
    ⟨0, 14, none, "Cash"⟩ _ (by norm_num +decide [postSales, insertSaleSchemaParse, validateItems, validateLine,
    getProduct, commitSale, createSaleBatch, incQuantity, setQuantity, checkoutValidate,
    demoDB, demoProduct])

/-- Claim C7: the claim says two concurrent last-unit checkouts cannot both
succeed because the decrement is an atomic conditional update guarded by the
available quantity.  The code has no such guard: the stock check is a
separate read in the validation phase and the decrement an unconditional
$inc, so in the interleaving where both requests validate against the initial
store (one unit on hand) before either writes, both commit, both return 201,
and the final persisted quantity is -1, not 0.  Sequential execution would
have rejected the second attempt. -/
theorem c7_interleaved_checkouts_both_succeed :
    checkoutValidate (demoDB 1) ⟨5, none, some "Cash"⟩ [⟨"p1", 1, 5⟩] = none
  ∧ (commitSale (demoDB 1) ⟨5, none⟩ [⟨"p1", 1, 5⟩]).1
      = ApiResult.created ⟨0, 5, none, "Cash"⟩
  ∧ (commitSale (commitSale (demoDB 1) ⟨5, none⟩ [⟨"p1", 1, 5⟩]).2
        ⟨5, none⟩ [⟨"p1", 1, 5⟩]).1
      = ApiResult.created ⟨1, 5, none, "Cash"⟩
  ∧ getProduct (commitSale (commitSale (demoDB 1) ⟨5, none⟩ [⟨"p1", 1, 5⟩]).2
        ⟨5, none⟩ [⟨"p1", 1, 5⟩]).2.products "p1"
      = some ⟨"p1", "Widget", "SKU-1", 5, -1, 10, none⟩
  ∧ checkoutValidate (commitSale (demoDB 1) ⟨5, none⟩ [⟨"p1", 1, 5⟩]).2
        ⟨5, none, some "Cash"⟩ [⟨"p1", 1, 5⟩] = some "Insufficient stock" := by
  norm_num +decide [postSales, insertSaleSchemaParse, validateItems, validateLine,
    getProduct, commitSale, createSaleBatch, incQuantity, setQuantity, checkoutValidate,
    demoDB, demoProduct]

/-- Claim C8, counterexample to the claim as stated: the quantity check only
rejects non-positive numbers, not non-integers; a requested quantity of 3/2
(denominator 2, so not an integer) is accepted, the checkout succeeds, and
the stock drops from 5 to 7/2. -/
theorem c8_counterexample :
    (¬ ∃ n : ℤ, ((3 : ℚ)/2) = (n : ℚ))
  ∧ (postSales (demoDB 5) (some ⟨3, none, none⟩) (some [⟨"p1", (3 : ℚ)/2, 2⟩])).1
      = ApiResult.created ⟨0, 3, none, "Cash"⟩
  ∧ getProduct (postSales (demoDB 5) (some ⟨3, none, none⟩)
        (some [⟨"p1", (3 : ℚ)/2, 2⟩])).2.products "p1"
      = some ⟨"p1", "Widget", "SKU-1", 5, (7 : ℚ)/2, 10, none⟩ := by
  refine ⟨?_, ?_, ?_⟩
  · rintro ⟨n, hn⟩
    have h : (3 : ℚ) = (n : ℚ) * 2 := by
      field_simp at hn
      linarith
    have h2 : (3 : ℤ) = n * 2 := by exact_mod_cast h
    omega
  · norm_num +decide [postSales, insertSaleSchemaParse, validateItems, validateLine,
    getProduct, commitSale, createSaleBatch, incQuantity, setQuantity, checkoutValidate,
    demoDB, demoProduct]
  · norm_num +decide [postSales, insertSaleSchemaParse, validateItems, validateLine,
    getProduct, commitSale, createSaleBatch, incQuantity, setQuantity, checkoutValidate,
    demoDB, demoProduct]

/-- Claim C8, amended: a zero or negative requested quantity is rejected with
the InvalidQuantity error and no write occurs (the store is returned
unchanged), provided every line references an existing product with
sufficient stock so that no other check fires first; non-integer positive
quantities are not rejected. -/
theorem c8_amended (db : DB) (sale : SaleInput) (items : List LineInput)
    (hT : 0 ≤ sale.total)
    (hall : ∀ it ∈ items, it.productId ≠ "" ∧
      ∃ p, getProduct db.products it.productId = some p ∧ it.quantity ≤ p.quantity)
    (hex : ∃ it ∈ items, it.quantity ≤ 0) :
    postSales db (some sale) (some items)
      = (ApiResult.badRequest "Invalid quantity", db) := by
  obtain ⟨it0, hit0, hq0⟩ := hex
  have hne : items ≠ [] := fun h => by simp [h] at hit0
  apply postSales_eq_badRequest db sale ⟨sale.total, sale.customerName⟩ items _ hne
  · simp [insertSaleSchemaParse, hT]
  · apply validateItems_first_error
    · intro x hx
      obtain ⟨hid, p, hp, hle⟩ := hall x hx
      by_cases hq : x.quantity ≤ 0
      · exact Or.inr (validateLine_invalidQuantity _ _ _ hid hp hq)
      · exact Or.inl (validateLine_none _ _ _ hid hp (not_le.mp hq) hle)
    · obtain ⟨hid, p, hp, _⟩ := hall it0 hit0
      exact ⟨it0, hit0, validateLine_invalidQuantity _ _ _ hid hp hq0⟩

/-- Claim C8, witness: a zero requested quantity is rejected with
InvalidQuantity and the store is unchanged. -/
theorem c8_amended_witness :
    postSales (demoDB 5) (some ⟨10, none, none⟩) (some [⟨"p1", 0, 2⟩])
      = (ApiResult.badRequest "Invalid quantity", demoDB 5) :=
  c8_amended (demoDB 5) ⟨10, none, none⟩ [⟨"p1", 0, 2⟩]
    (by decide)
    (by
      intro it hit
      simp only [List.mem_singleton] at hit
      subst hit
      exact ⟨by decide, demoProduct 5, by decide, by decide⟩)
    ⟨⟨"p1", 0, 2⟩, by simp, by decide⟩

/-- Claim C9: the claim says the persisted paymentMode equals the mode the
client supplied.  It does not: insertSaleSchema (the zod object) has no
paymentMode field, so parsing strips the supplied "Card", and the mongoose
default fills in "Cash" — the persisted mode is always "Cash" whatever the
client chose (membership in the Cash/Card/UPI enumeration and the default for
an unset mode do hold, vacuously through the default). -/
theorem c9_payment_mode_always_cash :
    (postSales (demoDB 5) (some ⟨10, none, some "Card"⟩) (some [⟨"p1", 1, 10⟩])).1
      = ApiResult.created ⟨0, 10, none, "Cash"⟩
  ∧ (postSales (demoDB 5) (some ⟨10, none, some "Card"⟩)
        (some [⟨"p1", 1, 10⟩])).2.sales
      = [⟨0, 10, none, "Cash"⟩]
  ∧ "Cash" ≠ "Card" := by
  norm_num +decide [postSales, insertSaleSchemaParse, validateItems, validateLine,
    getProduct, commitSale, createSaleBatch, incQuantity, setQuantity, checkoutValidate,
    demoDB, demoProduct]

/-- Claim C10: a request whose items field is missing or not an array
(modelled as none) or is the empty array is rejected with 400 and the message
"Invalid sale data format" whatever the sale object holds — in particular
before the zod parse of the sale header could run — and the store comes back
unchanged, so an empty cart never creates a Sale. -/
theorem c10_items_shape_guard (db : DB) (saleIn : Option SaleInput) :
    postSales db saleIn none = (ApiResult.badRequest "Invalid sale data format", db)
  ∧ postSales db saleIn (some [])
      = (ApiResult.badRequest "Invalid sale data format", db) := by
  cases saleIn with
  | none => exact ⟨rfl, rfl⟩
  | some s => exact ⟨rfl, rfl⟩

end SIMS
